import Mathlib

/-!
Shallow embedding of the tax26 repository (src/tax.py, with the identical
history-rehydration logic also present in src/app.py) and verification of
the frozen claims about its specification.

Python JSON values are modelled by the inductive type JVal below; JSON
numbers are modelled as integers (the payloads exercised by the claims are
integers, and none of the claims depends on float formatting).  Python
dicts coming from json.loads have unique keys, so an association list with
first-match lookup is an exact model.  Operations that can raise in Python
are modelled in the Except monad over the PyExc type.
-/

set_option autoImplicit false

namespace Tax

/-- A Python value produced by json.loads: None, bool, number, str, list or
dict.  Numbers are modelled as integers. -/
inductive JVal where
  | null
  | bool (b : Bool)
  | num (n : Int)
  | str (s : String)
  | arr (xs : List JVal)
  | obj (fields : List (String × JVal))

/-- Python exceptions that the modelled code can raise. -/
inductive PyExc where
  | attributeError (msg : String)
  | typeError (msg : String)
  | indexError (msg : String)
  | timeoutError
  | jsonDecodeError (msg : String)
  | clientError (msg : String)

/-- Python truthiness of a JSON value: None, False, 0, the empty string,
the empty list and the empty dict are falsy, everything else is truthy. -/
def pyTruthy : JVal → Bool
  | .null => false
  | .bool b => b
  | .num n => n != 0
  | .str s => s != ""
  | .arr xs => !xs.isEmpty
  | .obj fields => !fields.isEmpty

/-- The Python type name of a value, used in exception messages. -/
def pyTypeName : JVal → String
  | .null => "NoneType"
  | .bool _ => "bool"
  | .num _ => "int"
  | .str _ => "str"
  | .arr _ => "list"
  | .obj _ => "dict"

mutual

/-- Python repr of a JSON value (str renders with single quotes, list and
dict render with brackets and braces).  Escape sequences inside strings are
not modelled; no claim exercises them. -/
def pyRepr : JVal → String
  | .null => "None"
  | .bool true => "True"
  | .bool false => "False"
  | .num n => toString n
  | .str s => "\x27" ++ s ++ "\x27"
  | .arr xs => "[" ++ String.intercalate ", " (pyReprList xs) ++ "]"
  | .obj fields => "\x7b" ++ String.intercalate ", " (pyReprPairs fields) ++ "\x7d"

/-- repr of each element of a Python list. -/
def pyReprList : List JVal → List String
  | [] => []
  | v :: vs => pyRepr v :: pyReprList vs

/-- repr of each key-value pair of a Python dict. -/
def pyReprPairs : List (String × JVal) → List String
  | [] => []
  | (k, v) :: kvs => ("\x27" ++ k ++ "\x27: " ++ pyRepr v) :: pyReprPairs kvs

end

/-- Python str() of a JSON value, as used by f-string interpolation:
identity on strings, repr on everything else. -/
def pyStr : JVal → String
  | .str s => s
  | v => pyRepr v

/-- Python dict.get(key, dflt): the stored value when the key is present
(even when that value is None), otherwise the supplied default. -/
def pyGetD (fields : List (String × JVal)) (key : String) (dflt : JVal) : JVal :=
  match List.lookup key fields with
  | some v => v
  | none => dflt

/-- Python dict.get(key) with its implicit None default. -/
def pyGet (fields : List (String × JVal)) (key : String) : JVal :=
  pyGetD fields key .null

/-- Python boolean or: the left operand when it is truthy, otherwise the
right operand. -/
def pyOr (a b : JVal) : JVal :=
  if pyTruthy a then a else b

/-- Python subscript xs[0]: IndexError on an empty list. -/
def pySubscriptZero : List JVal → Except PyExc JVal
  | [] => .error (.indexError "list index out of range")
  | x :: _ => .ok x

/-- Python iteration over a value, as in a for-comprehension: lists yield
their elements, strings yield their one-character substrings, dicts yield
their keys, other values raise TypeError. -/
def pyIter : JVal → Except PyExc (List JVal)
  | .arr xs => .ok xs
  | .str s => .ok (s.data.map fun ch => JVal.str (String.mk [ch]))
  | .obj fields => .ok (fields.map fun kv => JVal.str kv.1)
  | v => .error (.typeError (pyTypeName v ++ " object is not iterable"))

/-- The six characters Python str.strip() removes by default. -/
def isPySpace (c : Char) : Bool :=
  c == ' ' || c == '\t' || c == '\n' || c == '\r' || c == '\x0b' || c == '\x0c'

/-- Python str.strip(): drop that whitespace from both ends. -/
def stripString (s : String) : String :=
  String.mk (((s.data.dropWhile isPySpace).reverse.dropWhile isPySpace).reverse)

/-- Python value.strip(): defined on str only; AttributeError otherwise. -/
def pyStrip : JVal → Except PyExc String
  | .str s => .ok (stripString s)
  | v => .error (.attributeError (pyTypeName v ++ " object has no attribute strip"))

/-- Left-to-right effectful map, modelling how str.join drains a Python
generator expression: the first exception raised by an element aborts the
whole comprehension. -/
def exceptMapList (f : JVal → Except PyExc String) : List JVal → Except PyExc (List String)
  | [] => .ok []
  | v :: vs =>
    match f v with
    | .error e => .error e
    | .ok s =>
      match exceptMapList f vs with
      | .error e => .error e
      | .ok ss => .ok (s :: ss)

/-- The answer expression of extract_text, tax.py lines 64-70: the Python
or-chain data.get("answer") or data.get("response") or data.get("output")
or data.get("cleanedResponse") or "" (left associated, as Python parses
it). -/
def extractAnswer (fields : List (String × JVal)) : JVal :=
  pyOr (pyOr (pyOr (pyOr (pyGet fields "answer") (pyGet fields "response"))
      (pyGet fields "output")) (pyGet fields "cleanedResponse")) (.str "")

/-- One line of the sources block, tax.py line 81: the f-string
"- \x7bc.get(&source)\x7d (\x7bc.get(&reference, c.get(&section, &&))\x7d)".
c.get raises AttributeError when c is not a dict. -/
def citationLine (c : JVal) : Except PyExc String :=
  match c with
  | .obj cf =>
    .ok ("- " ++ pyStr (pyGet cf "source") ++ " (" ++
      pyStr (pyGetD cf "reference" (pyGetD cf "section" (.str ""))) ++ ")")
  | v => .error (.attributeError (pyTypeName v ++ " object has no attribute get"))

/-- extract_text, tax.py lines 54-85, translated clause by clause:
falsy input guard; data = data[0] when data is a list; str coercion for
non-dict records; the answer or-chain; citations default []; the
empty-citations early return; otherwise the joined sources block is built
first (line 80) and answer.strip() is evaluated after it (line 85). -/
def extract_text (data : JVal) : Except PyExc String :=
  if pyTruthy data = false then
    .ok " No response received.\n\n Sources: None"
  else
    match (match data with | .arr xs => pySubscriptZero xs | d => Except.ok d) with
    | .error e => .error e
    | .ok record =>
      match record with
      | .obj fields =>
        let answer := extractAnswer fields
        let citations := pyGetD fields "citations" (.arr [])
        if pyTruthy citations = false then
          .ok (pyStr (pyOr answer (.str "Response rejected.")) ++ "\n\n")
        else
          match pyIter citations with
          | .error e => .error e
          | .ok cites =>
            match exceptMapList citationLine cites with
            | .error e => .error e
            | .ok lines =>
              match pyStrip answer with
              | .error e => .error e
              | .ok stripped =>
                .ok (stripped ++ "\n\n Sources:\n" ++ String.intercalate "\n" lines)
      | other => .ok (pyStr other ++ "\n\n Sources: None")

/-- Python str.endswith, the suffix test used to dispatch on file
extensions. -/
def strEndsWith (s suffix : String) : Bool :=
  suffix.data.isSuffixOf s.data

/-- Character-list infix test backing the substring check below. -/
def listInfix (needle : List Char) : List Char → Bool
  | [] => needle.isEmpty
  | c :: rest => needle.isPrefixOf (c :: rest) || listInfix needle rest

/-- Python substring membership, needle in haystack. -/
def strContainsSub (haystack needle : String) : Bool :=
  listInfix needle.data haystack.data

/-- enforce_citation_prompt, tax.py lines 20-49: the fixed instruction
template wrapped around the user question (doubled braces in the Python
f-string denote literal braces). -/
def enforce_citation_prompt (user_message : String) : String :=
  "\nYou are a regulated tax consultant.\n\nMANDATORY RULES (NON-NEGOTIABLE):\n- Every response MUST include citations\n- Citations MUST reference real tax laws, regulations, or official guidance\n- Return ONLY valid JSON in the format below\n\nFORMAT:\n\x7b\n  \"answer\": \"Clear and professional response\",\n  \"citations\": [\n    \x7b\n      \"source\": \"Document name\",\n      \"section\": \"Section or clause\",\n      \"reference\": \"Exact legal citation\"\n    \x7d\n  ]\n\x7d\n\nIf citations cannot be provided, respond with:\n\x7b\n  \"answer\": \"I cannot answer this question with certainty.\",\n  \"citations\": []\n\x7d\n\nUser question:\n"
    ++ user_message ++ "\n"

/-- Outcome of the HTTP POST inside call_n8n_chain: a response (status,
Content-Type header, and either the parsed JSON body or a json() parse
failure), a total-timeout expiry, or another transport exception. -/
inductive NetOutcome where
  | response (status : Nat) (contentType : String) (body : Except String JVal)
  | timeout
  | transportError (msg : String)

/-- The two classes named by the except clauses of call_n8n_chain,
tax.py lines 144-146. -/
inductive HandlerClass where
  | aiohttpClientTimeout
  | pyException

/-- Whether the named class is a BaseException subclass.
aiohttp.ClientTimeout is the timeout-settings dataclass, not an exception
class (the exception raised on total-timeout expiry is
asyncio.TimeoutError), so it is not one. -/
def handlerIsExceptionClass : HandlerClass → Bool
  | .aiohttpClientTimeout => false
  | .pyException => true

/-- Whether the handler class catches the raised exception.  Every
exception the modelled try block can raise is an Exception subclass. -/
def handlerMatches : HandlerClass → PyExc → Bool
  | .aiohttpClientTimeout, _ => false
  | .pyException, _ => true

/-- str(e) for the generic handler message. -/
def excMessage : PyExc → String
  | .attributeError m => m
  | .typeError m => m
  | .indexError m => m
  | .timeoutError => ""
  | .jsonDecodeError m => m
  | .clientError m => m

/-- CPython handling of a raised exception against a list of except
clauses, tried in order: evaluating a clause whose class is not a
BaseException subclass raises TypeError in place of the original
exception (and later clauses are not consulted); otherwise a matching
clause runs its body and a non-matching clause passes to the next; with
no clause left the exception propagates. -/
def exceptClauses (handlers : List (HandlerClass × (PyExc → String))) (e : PyExc) :
    Except PyExc String :=
  match handlers with
  | [] => .error e
  | (h, body) :: rest =>
    if handlerIsExceptionClass h = false then
      .error (.typeError "catching classes that do not inherit from BaseException is not allowed")
    else if handlerMatches h e then .ok (body e)
    else exceptClauses rest e

/-- The try block of call_n8n_chain, tax.py lines 126-143: non-200 status
returns a status message, a Content-Type without "application/json"
returns the invalid-content-type message, otherwise the parsed body is fed
to extract_text; timeout expiry, transport failures, json() failures and
anything extract_text raises surface as exceptions of the block. -/
def tryBody (net : NetOutcome) : Except PyExc String :=
  match net with
  | .timeout => .error .timeoutError
  | .transportError m => .error (.clientError m)
  | .response status contentType body =>
    if status != 200 then .ok (" n8n returned status " ++ toString status)
    else if strContainsSub contentType "application/json" = false then
      .ok " n8n returned invalid content type."
    else
      match body with
      | .error m => .error (.jsonDecodeError m)
      | .ok data => extract_text data

/-- The try/except statement of call_n8n_chain, tax.py lines 126-147, with
its two except clauses in source order: aiohttp.ClientTimeout returning the
fixed timeout message, then Exception returning the unexpected-error
message. -/
def tryCall (net : NetOutcome) : Except PyExc String :=
  match tryBody net with
  | .ok s => .ok s
  | .error e =>
    exceptClauses
      [(HandlerClass.aiohttpClientTimeout, fun _ => " Request to n8n timed out."),
       (HandlerClass.pyException, fun ex => " Unexpected error: " ++ excMessage ex)] e

/-- Result of one invocation of call_n8n_chain: the chatInput string of
the HTTP request it issued (none when no request was made) and the value
it returned or the exception it raised. -/
structure CallResult where
  request : Option String
  reply : Except PyExc String

/-- call_n8n_chain, tax.py lines 113-147.  The webhook URL is None when
the environment variable is unset; the guard `if not N8N_WEBHOOK_URL` also
fires on the empty string.  `if document_context` is Python truthiness, so
None and the empty string both skip the context prefix. -/
def call_n8n_chain (webhookUrl : Option String) (user_message : String)
    (document_context : Option String) (net : NetOutcome) : CallResult :=
  if (webhookUrl.getD "") == "" then
    { request := none, reply := .ok " N8N_WEBHOOK_URL not configured." }
  else
    let enforced_message := enforce_citation_prompt user_message
    let enforced_message :=
      match document_context with
      | some ctx =>
        if ctx == "" then enforced_message
        else "DOCUMENT CONTEXT (FOR CITATION ONLY):\n" ++ ctx ++ "\n\n" ++ enforced_message
      | none => enforced_message
    { request := some enforced_message, reply := tryCall net }

/-- An uploaded file reference, as used by read_documents. -/
structure UploadedDocument where
  name : String
  path : String

/-- The external extraction libraries, as oracles on the file path: the
page texts fitz.open would yield, the paragraph texts python-docx would
yield, and the raw text of open(...).read(). -/
structure Extractors where
  pdfPages : String → List String
  docxParagraphs : String → List String
  txtText : String → String

/-- One iteration of the read_documents loop, tax.py lines 92-106: append
the FILE header, then dispatch on the path suffix (.pdf pages concatenated
in page order, .docx paragraphs joined with newlines, .txt raw text, any
other suffix nothing). -/
def readStep (ex : Extractors) (text : String) (document : UploadedDocument) : String :=
  let text1 := text ++ "\n\nFILE: " ++ document.name ++ "\n"
  if strEndsWith document.path ".pdf" then text1 ++ String.join (ex.pdfPages document.path)
  else if strEndsWith document.path ".docx" then
    text1 ++ String.intercalate "\n" (ex.docxParagraphs document.path)
  else if strEndsWith document.path ".txt" then text1 ++ ex.txtText document.path
  else text1

/-- read_documents, tax.py lines 90-108: fold the loop body over the
documents starting from the empty accumulator. -/
def read_documents (ex : Extractors) (documents : List UploadedDocument) : String :=
  documents.foldl (readStep ex) ""

/-- One conversation turn as stored in chat_history. -/
structure ChatTurn where
  role : String
  content : String

/-- One step of a persisted thread: its type tag and output string, either
of which may be absent from the step dict. -/
structure ThreadStep where
  stype : Option String
  output : Option String

/-- One iteration of the on_chat_resume loop, tax.py lines 176-180 (the
same logic appears in src/app.py lines 56-63): a user_message step appends
a user turn, an assistant_message step appends an assistant turn, with
step.get("output", "") as content; every other step type is skipped. -/
def resumeStep (history : List ChatTurn) (step : ThreadStep) : List ChatTurn :=
  if step.stype == some "user_message" then
    history ++ [⟨"user", step.output.getD ""⟩]
  else if step.stype == some "assistant_message" then
    history ++ [⟨"assistant", step.output.getD ""⟩]
  else history

/-- on_chat_resume, tax.py lines 172-182: scan the steps of the thread in
order starting from an empty history; the result replaces the session
history wholesale via cl.user_session.set. -/
def on_chat_resume (steps : List ThreadStep) : List ChatTurn :=
  steps.foldl resumeStep []

/-- on_message, tax.py lines 187-214: document_context is None unless
files were attached, in which case it is read_documents over them; the
reply of call_n8n_chain is sent to the UI stripped and the raw reply is
appended to the history as the assistant turn, in the same extend call as
the user turn.  When call_n8n_chain raises, the exception propagates
before the history is touched.  The result is the new history paired with
the final UI message content. -/
def on_message (ex : Extractors) (webhookUrl : Option String)
    (chat_history : List ChatTurn) (content : String)
    (files : List UploadedDocument) (net : NetOutcome) :
    Except PyExc (List ChatTurn × String) :=
  let document_context := if files.isEmpty then none else some (read_documents ex files)
  match (call_n8n_chain webhookUrl content document_context net).reply with
  | .error e => .error e
  | .ok reply =>
    .ok (chat_history ++ [⟨"user", content⟩, ⟨"assistant", reply⟩], stripString reply)

/-!
Spec-side definitions.  Each follows the wording of the specification and
is compared with the corresponding definition translated from the source.
-/

/-- Follows the spec wording for claim C7: try the candidate answer fields
in priority order, the first present non-empty (truthy) value wins. -/
def firstTruthyField (fields : List (String × JVal)) : List String → JVal
  | [] => .str ""
  | key :: keys =>
    match List.lookup key fields with
    | some v => if pyTruthy v then v else firstTruthyField fields keys
    | none => firstTruthyField fields keys

/-- Follows the spec wording for claim C7: priority order answer,
response, output, cleanedResponse, defaulting to the empty string. -/
def answerPrioritySpec (fields : List (String × JVal)) : JVal :=
  firstTruthyField fields ["answer", "response", "output", "cleanedResponse"]

/-- Follows the spec wording for claim C5: a user_message step maps to a
user turn, an assistant_message step to an assistant turn, the output
string defaulting to empty, every other step to nothing. -/
def stepTurnSpec (step : ThreadStep) : Option ChatTurn :=
  if step.stype == some "user_message" then some ⟨"user", step.output.getD ""⟩
  else if step.stype == some "assistant_message" then some ⟨"assistant", step.output.getD ""⟩
  else none

/-- Follows the spec wording for claim C9: the contribution of one
document, its header line followed by its extracted content. -/
def documentBlockSpec (ex : Extractors) (d : UploadedDocument) : String :=
  "\n\nFILE: " ++ d.name ++ "\n" ++
    (if strEndsWith d.path ".pdf" then String.join (ex.pdfPages d.path)
     else if strEndsWith d.path ".docx" then String.intercalate "\n" (ex.docxParagraphs d.path)
     else if strEndsWith d.path ".txt" then ex.txtText d.path
     else "")

/-- Follows the spec wording for claim C2: the rendered line of one
citation object, source then reference-preferred-over-section in
parentheses (non-dict citations render nothing here; the source raises on
them, which claim C1 covers). -/
def citationLineSpec (c : JVal) : String :=
  match c with
  | .obj cf =>
    "- " ++ pyStr (pyGet cf "source") ++ " (" ++
      pyStr (pyGetD cf "reference" (pyGetD cf "section" (.str ""))) ++ ")"
  | _ => ""

/-!
Helper lemmas shared by the claim theorems.
-/

/-- Joining a cons of strings prepends the head. -/
theorem string_join_cons (x : String) (l : List String) :
    String.join (x :: l) = x ++ String.join l := by
  cases x with
  | mk d => rw [String.join_eq, String.join_eq]; rfl

/-- A non-empty object is truthy. -/
theorem pyTruthy_obj_of_ne_nil (fields : List (String × JVal)) (h : fields ≠ []) :
    pyTruthy (JVal.obj fields) = true := by
  cases fields with
  | nil => exact absurd rfl h
  | cons f fs => rfl

/-- A successful lookup forces a non-empty association list. -/
theorem lookup_some_ne_nil (k : String) (fields : List (String × JVal)) (v : JVal)
    (h : List.lookup k fields = some v) : fields ≠ [] := by
  intro hn
  subst hn
  simp at h

/-- When every element maps successfully, the effectful map over the
citation list is the pure map. -/
theorem exceptMapList_ok (f : JVal → Except PyExc String) (g : JVal → String)
    (l : List JVal) (h : ∀ c ∈ l, f c = .ok (g c)) :
    exceptMapList f l = .ok (l.map g) := by
  induction l with
  | nil => rfl
  | cons x xs ih =>
    simp [exceptMapList, h x (List.mem_cons_self x xs),
      ih fun c hc => h c (List.mem_cons_of_mem x hc)]

/-- One loop iteration of read_documents appends exactly that document
block to the accumulator. -/
theorem readStep_eq (ex : Extractors) (acc : String) (d : UploadedDocument) :
    readStep ex acc d = acc ++ documentBlockSpec ex d := by
  unfold readStep documentBlockSpec
  split_ifs <;> simp [String.append_assoc]

/-- The read_documents fold is the concatenation of the document blocks. -/
theorem foldl_readStep_append (ex : Extractors) (docs : List UploadedDocument)
    (acc : String) :
    docs.foldl (readStep ex) acc = acc ++ String.join (docs.map (documentBlockSpec ex)) := by
  induction docs generalizing acc with
  | nil => simp [String.join]
  | cons d rest ih =>
    rw [List.foldl_cons, readStep_eq, ih, List.map_cons, string_join_cons,
      String.append_assoc]

/-- The on_chat_resume fold is the filterMap of the per-step turn. -/
theorem foldl_resumeStep_append (steps : List ThreadStep) (acc : List ChatTurn) :
    steps.foldl resumeStep acc = acc ++ steps.filterMap stepTurnSpec := by
  induction steps generalizing acc with
  | nil => simp
  | cons s rest ih =>
    simp only [List.foldl_cons, List.filterMap_cons, resumeStep, stepTurnSpec]
    cases h1 : (s.stype == some "user_message") <;>
      cases h2 : (s.stype == some "assistant_message") <;>
        simp [h1, h2, ih, List.append_assoc]

/-- Python or over a dict.get is a presence-and-truthiness test. -/
theorem pyOr_get_step (fields : List (String × JVal)) (k : String) (rest : JVal) :
    pyOr (pyGet fields k) rest =
      (match List.lookup k fields with
       | some v => if pyTruthy v then v else rest
       | none => rest) := by
  unfold pyOr pyGet pyGetD
  cases List.lookup k fields with
  | none => simp [pyTruthy]
  | some v => rfl

/-- Python or associates. -/
theorem pyOr_assoc (a b c : JVal) : pyOr (pyOr a b) c = pyOr a (pyOr b c) := by
  by_cases h : pyTruthy a = true <;> simp [pyOr, h]

/-!
Claim theorems.
-/

/-- Claim C1 (code_bug): the spec says extract_text never raises, but the
source raises AttributeError both when the citations list holds a non-dict
element (c.get on line 81) and when a non-empty citations list is paired
with a non-string answer (answer.strip() on line 85). -/
theorem extract_text_raises_on_malformed :
    extract_text (JVal.obj [("answer", JVal.str "A"),
        ("citations", JVal.arr [JVal.str "x"])]) =
      .error (PyExc.attributeError "str object has no attribute get") ∧
    extract_text (JVal.obj [("answer", JVal.num 1),
        ("citations", JVal.arr [JVal.obj [("source", JVal.str "S"),
          ("reference", JVal.str "R")]])]) =
      .error (PyExc.attributeError "int object has no attribute strip") :=
  ⟨rfl, rfl⟩

/-- Claim C2, counterexample: the round-trip value is not the string the
claim names, because line 85 of the source renders a space before the
word Sources. -/
theorem extract_text_round_trip_counterexample :
    extract_text (JVal.obj [("answer", JVal.str "A"),
        ("citations", JVal.arr [JVal.obj [("source", JVal.str "S"),
          ("reference", JVal.str "R")]])]) ≠
      Except.ok "A\n\nSources:\n- S (R)" := by
  intro h
  have heval : extract_text (JVal.obj [("answer", JVal.str "A"),
      ("citations", JVal.arr [JVal.obj [("source", JVal.str "S"),
        ("reference", JVal.str "R")]])]) =
      Except.ok "A\n\n Sources:\n- S (R)" := rfl
  rw [heval] at h
  exact absurd (Except.ok.inj h) (by decide)

/-- Claim C2, amended: the round trip yields the answer, a blank line, a
space, then the Sources block; in general a non-empty list of citation
dicts under a string answer renders the stripped answer followed by one
line per citation; and the rendered line prefers reference over section
when both are present. -/
theorem extract_text_round_trip_amended :
    extract_text (JVal.obj [("answer", JVal.str "A"),
        ("citations", JVal.arr [JVal.obj [("source", JVal.str "S"),
          ("reference", JVal.str "R")]])]) =
      Except.ok "A\n\n Sources:\n- S (R)" ∧
    (∀ (fields : List (String × JVal)) (a : String) (cs : List JVal),
      List.lookup "citations" fields = some (JVal.arr cs) → cs ≠ [] →
      (∀ c ∈ cs, ∃ cf, c = JVal.obj cf) → extractAnswer fields = JVal.str a →
      extract_text (JVal.obj fields) =
        Except.ok (stripString a ++ "\n\n Sources:\n" ++
          String.intercalate "\n" (cs.map citationLineSpec))) ∧
    (∀ src sec r : JVal,
      citationLineSpec (JVal.obj [("source", src), ("section", sec), ("reference", r)]) =
        "- " ++ pyStr src ++ " (" ++ pyStr r ++ ")") := by
  refine ⟨rfl, ?_, fun src sec r => rfl⟩
  intro fields a cs hcit hne hobj hans
  have hfe : fields ≠ [] := lookup_some_ne_nil _ _ _ hcit
  obtain ⟨hd, tl, rfl⟩ := List.exists_cons_of_ne_nil hne
  have ht := pyTruthy_obj_of_ne_nil fields hfe
  have hmap : exceptMapList citationLine (hd :: tl) =
      .ok (List.map citationLineSpec (hd :: tl)) :=
    exceptMapList_ok _ _ _ fun c hc => by
      obtain ⟨cf, rfl⟩ := hobj c hc
      rfl
  have hct : pyTruthy (JVal.arr (hd :: tl)) = true := by simp [pyTruthy]
  simp [extract_text, ht, pyGetD, hcit, hct, pyIter, hmap, hans, pyStrip]

/-- Claim C2, amended, witness at a citation carrying both a section and a
reference. -/
theorem extract_text_round_trip_amended_witness :
    extract_text (JVal.obj [("answer", JVal.str "A"),
        ("citations", JVal.arr [JVal.obj [("source", JVal.str "S"),
          ("section", JVal.str "X"), ("reference", JVal.str "R")]])]) =
      Except.ok (stripString "A" ++ "\n\n Sources:\n" ++
        String.intercalate "\n"
          ([JVal.obj [("source", JVal.str "S"), ("section", JVal.str "X"),
            ("reference", JVal.str "R")]].map citationLineSpec)) :=
  extract_text_round_trip_amended.2.1
    [("answer", JVal.str "A"),
     ("citations", JVal.arr [JVal.obj [("source", JVal.str "S"),
       ("section", JVal.str "X"), ("reference", JVal.str "R")]])]
    "A"
    [JVal.obj [("source", JVal.str "S"), ("section", JVal.str "X"),
      ("reference", JVal.str "R")]]
    rfl (List.cons_ne_nil _ _)
    (fun _ hc => ⟨[("source", JVal.str "S"), ("section", JVal.str "X"),
      ("reference", JVal.str "R")], List.eq_of_mem_singleton hc⟩)
    rfl

/-- Claim C3 (code_bug): on timeout expiry the spec says the fixed timeout
message is returned, but line 144 of the source names
aiohttp.ClientTimeout, which is not an exception class, in its first
except clause; CPython therefore raises TypeError while matching the
raised asyncio.TimeoutError, and that TypeError propagates out of
call_n8n_chain, so the timeout message is never returned. -/
theorem call_n8n_chain_timeout_raises :
    (∀ (u m : String) (c : Option String), u ≠ "" →
      (call_n8n_chain (some u) m c NetOutcome.timeout).reply =
        .error (PyExc.typeError
          "catching classes that do not inherit from BaseException is not allowed")) ∧
    (∀ (url : Option String) (m : String) (c : Option String),
      (call_n8n_chain url m c NetOutcome.timeout).reply ≠
        Except.ok " Request to n8n timed out.") := by
  constructor
  · intro u m c hu
    have hbeq : (u == "") = false := beq_eq_false_iff_ne.mpr hu
    simp [call_n8n_chain, hbeq, tryCall, tryBody, exceptClauses, handlerIsExceptionClass]
  · intro url m c h
    match url with
    | none =>
      exact absurd (Except.ok.inj h) (by decide)
    | some u =>
      by_cases hu : u = ""
      · subst hu
        exact absurd (Except.ok.inj h) (by decide)
      · have hbeq : (u == "") = false := beq_eq_false_iff_ne.mpr hu
        simp [call_n8n_chain, hbeq, tryCall, tryBody, exceptClauses,
          handlerIsExceptionClass] at h

/-- Claim C3 witness: a configured URL whose request times out. -/
theorem call_n8n_chain_timeout_raises_witness :
    (call_n8n_chain (some "http://localhost:5678/webhook") "hi" none
        NetOutcome.timeout).reply =
      .error (PyExc.typeError
        "catching classes that do not inherit from BaseException is not allowed") :=
  call_n8n_chain_timeout_raises.1 "http://localhost:5678/webhook" "hi" none (by decide)

/-- Claim C4: whenever handling completes, on_message has appended exactly
one user turn carrying the raw message content immediately followed by one
assistant turn carrying the reply, in a single extend of the prior
history; when the workflow call raises instead, the exception propagates
and no half pair is recorded (the model returns no history at all, since
the extend on lines 210-213 is only reached after the call).  The second
conjunct shows an error-string reply (the configuration error) being
recorded as the assistant turn like any other reply. -/
theorem on_message_appends_paired_turns :
    (∀ (ex : Extractors) (url : Option String) (h : List ChatTurn)
        (content : String) (files : List UploadedDocument) (net : NetOutcome),
      (∃ reply, on_message ex url h content files net =
        .ok (h ++ [⟨"user", content⟩, ⟨"assistant", reply⟩], stripString reply)) ∨
      (∃ e, on_message ex url h content files net = .error e)) ∧
    (∀ (ex : Extractors) (h : List ChatTurn) (net : NetOutcome),
      on_message ex none h "hi" [] net =
        .ok (h ++ [⟨"user", "hi"⟩, ⟨"assistant", " N8N_WEBHOOK_URL not configured."⟩],
          "N8N_WEBHOOK_URL not configured.")) := by
  constructor
  · intro ex url h content files net
    cases hr : (call_n8n_chain url content
        (if files.isEmpty then none else some (read_documents ex files)) net).reply with
    | ok r => exact Or.inl ⟨r, by simp only [on_message]; rw [hr]⟩
    | error e => exact Or.inr ⟨e, by simp only [on_message]; rw [hr]⟩
  · intro ex h net
    rfl

/-- Claim C5: on_chat_resume rebuilds the history by mapping user_message
steps to user turns and assistant_message steps to assistant turns with
the output field as content (empty when absent), skipping every other step
type, in step order; and the spec example rehydrates exactly as stated. -/
theorem on_chat_resume_rehydrates :
    (∀ steps : List ThreadStep, on_chat_resume steps = steps.filterMap stepTurnSpec) ∧
    on_chat_resume
        [⟨some "user_message", some "hi"⟩, ⟨some "assistant_message", some "hello"⟩,
         ⟨some "other", some "x"⟩] =
      [⟨"user", "hi"⟩, ⟨"assistant", "hello"⟩] := by
  constructor
  · intro steps
    unfold on_chat_resume
    rw [foldl_resumeStep_append]
    rfl
  · rfl

/-- Claim C6, counterexample: the empty object has an absent citations
field and an empty answer, yet extract_text returns the no-response
message (the falsy-input guard on line 55 fires first, every dict being
falsy when empty), which neither carries the Response rejected literal nor
avoids the Sources substring. -/
theorem extract_text_empty_citations_counterexample :
    extract_text (JVal.obj []) = .ok " No response received.\n\n Sources: None" ∧
    strContainsSub " No response received.\n\n Sources: None" "Response rejected." = false ∧
    strContainsSub " No response received.\n\n Sources: None" "Sources:" = true :=
  ⟨rfl, rfl, rfl⟩

/-- Claim C6, amended to non-empty objects: with citations an empty list
or absent, the result is the answer followed by a blank line and nothing
more (so no Sources block is appended), Response rejected appearing
exactly when the extracted answer is empty; the empty object instead falls
under the falsy-input guard.  The first conjunct is the spec example. -/
theorem extract_text_empty_citations_amended :
    (extract_text (JVal.obj [("answer", JVal.str "A"), ("citations", JVal.arr [])]) =
        .ok "A\n\n" ∧
      strContainsSub "A\n\n" "A" = true ∧
      strContainsSub "A\n\n" "Sources:" = false) ∧
    (∀ (fields : List (String × JVal)) (a : String), fields ≠ [] →
      (List.lookup "citations" fields = some (JVal.arr []) ∨
        List.lookup "citations" fields = none) →
      extractAnswer fields = JVal.str a → a ≠ "" →
      extract_text (JVal.obj fields) = .ok (a ++ "\n\n")) ∧
    (∀ fields : List (String × JVal), fields ≠ [] →
      (List.lookup "citations" fields = some (JVal.arr []) ∨
        List.lookup "citations" fields = none) →
      extractAnswer fields = JVal.str "" →
      extract_text (JVal.obj fields) = .ok "Response rejected.\n\n") := by
  refine ⟨⟨rfl, rfl, rfl⟩, ?_, ?_⟩
  · intro fields a hne hcit hans ha
    rcases hcit with hc | hc <;>
      simp [extract_text, pyTruthy, pyGetD, hc, hans, pyOr, pyStr, hne, ha]
  · intro fields hne hcit hans
    rcases hcit with hc | hc <;>
      simp [extract_text, pyTruthy, pyGetD, hc, hans, pyOr, pyStr, hne]

/-- Claim C6, amended, witness at a non-empty answer and at an empty
answer. -/
theorem extract_text_empty_citations_amended_witness :
    extract_text (JVal.obj [("answer", JVal.str "A"), ("citations", JVal.arr [])]) =
      .ok ("A" ++ "\n\n") ∧
    extract_text (JVal.obj [("answer", JVal.str ""), ("citations", JVal.arr [])]) =
      .ok "Response rejected.\n\n" :=
  ⟨extract_text_empty_citations_amended.2.1
      [("answer", JVal.str "A"), ("citations", JVal.arr [])] "A"
      (List.cons_ne_nil _ _) (Or.inl rfl) rfl (by decide),
    extract_text_empty_citations_amended.2.2
      [("answer", JVal.str ""), ("citations", JVal.arr [])]
      (List.cons_ne_nil _ _) (Or.inl rfl) rfl⟩

/-- Claim C7: the answer expression of extract_text picks the first
present truthy value among answer, response, output, cleanedResponse in
that order and defaults to the empty string (a present falsy value, such
as the empty string, is skipped exactly as an absent key is). -/
theorem extractAnswer_priority_order (fields : List (String × JVal)) :
    extractAnswer fields = answerPrioritySpec fields := by
  unfold extractAnswer answerPrioritySpec
  rw [pyOr_assoc, pyOr_assoc, pyOr_assoc, pyOr_get_step, pyOr_get_step,
    pyOr_get_step, pyOr_get_step]
  simp only [firstTruthyField]

/-- Claim C8: with the webhook URL unset (or set to the empty string,
which the same truthiness guard catches), call_n8n_chain returns the fixed
configuration-error string whatever the message, context and network would
have done, issues no HTTP request and builds no prompt. -/
theorem call_n8n_chain_unconfigured_short_circuit :
    ∀ (m : String) (c : Option String) (net : NetOutcome),
      call_n8n_chain none m c net =
        { request := none, reply := Except.ok " N8N_WEBHOOK_URL not configured." } ∧
      call_n8n_chain (some "") m c net =
        { request := none, reply := Except.ok " N8N_WEBHOOK_URL not configured." } :=
  fun _ _ _ => ⟨rfl, rfl⟩

/-- Claim C9: read_documents is the in-order concatenation of one block
per document, each block the FILE header line carrying the document name
followed by that document's extracted content (pdf pages in page order,
docx paragraphs joined with newlines, txt raw text, nothing for an
unsupported extension); the second conjunct spells out that an unsupported
extension contributes its header line only. -/
theorem read_documents_headers_in_order :
    (∀ (ex : Extractors) (documents : List UploadedDocument),
      read_documents ex documents =
        String.join (documents.map (documentBlockSpec ex))) ∧
    (∀ (ex : Extractors) (nm : String),
      read_documents ex [⟨nm, "payslip.xyz"⟩] = "\n\nFILE: " ++ nm ++ "\n") := by
  constructor
  · intro ex documents
    unfold read_documents
    rw [foldl_readStep_append, String.empty_append]
  · intro ex nm
    rfl

/-- Claim C10: every falsy input, the empty list included, yields the
fixed no-response message, so the empty downstream array never reaches the
data[0] subscript and is indistinguishable from a null response. -/
theorem extract_text_falsy_input :
    (∀ v : JVal, pyTruthy v = false →
      extract_text v = .ok " No response received.\n\n Sources: None") ∧
    pyTruthy (JVal.arr []) = false ∧ pyTruthy (JVal.str "") = false ∧
    pyTruthy (JVal.num 0) = false ∧ pyTruthy (JVal.bool false) = false ∧
    pyTruthy JVal.null = false ∧
    extract_text (JVal.arr []) = .ok " No response received.\n\n Sources: None" :=
  ⟨fun v h => by simp [extract_text, h], rfl, rfl, rfl, rfl, rfl, rfl⟩

/-- Claim C10 witness at the falsy number zero. -/
theorem extract_text_falsy_input_witness :
    extract_text (JVal.num 0) = .ok " No response received.\n\n Sources: None" :=
  extract_text_falsy_input.1 (JVal.num 0) rfl

end Tax
